import Mathlib

/-!
Shallow embedding of the reporting pipeline of
`flask-login-ci-confluence-win-devsecops` (generate_report.py,
publish_report_confluence.py, send_report_email.py, app/app.py),
with theorems settling the specification claims.

The artifact directory is modelled as a partial map from path to file
content; every Python function touching it becomes a pure function of that
map.  Python floats are modelled exactly over ℚ (Python's `round` rounds
ties to even).  Regex fragments of the shape `(\d+)\s+kw` are modelled by a
left-to-right scanner; `\d+` and `\s+` are maximal-munch runs followed by a
literal, so no backtracking is lost.  The remote wiki and the SMTP
transport are external collaborators: their documented responses (duplicate
title and duplicate filename are rejected, searches match exact titles) are
part of the remote-state model, while everything the scripts themselves do
is translated line by line.
-/

/-- Decimal digit character for a value below ten (as produced by Python
`str` on a non-negative integer). -/
def digitChar (d : Nat) : Char :=
  match d with
  | 0 => '0' | 1 => '1' | 2 => '2' | 3 => '3' | 4 => '4'
  | 5 => '5' | 6 => '6' | 7 => '7' | 8 => '8' | _ => '9'

/-- Decimal digit string builder, structurally recursive on a fuel bound
(any fuel above the value itself is enough, since `n / 10 < n`). -/
def natDigitsFuel : Nat → Nat → List Char
  | 0, _ => []
  | fuel + 1, n =>
    if n < 10 then [digitChar n]
    else natDigitsFuel fuel (n / 10) ++ [digitChar (n % 10)]

/-- Decimal digit string of a natural number, most significant digit first
(model of Python `str(n)` for `n ≥ 0`). -/
def natDigits (n : Nat) : List Char := natDigitsFuel (n + 1) n

/-- Model of Python `str` on an int. -/
def pyStr (n : Int) : String :=
  if n < 0 then String.mk ('-' :: natDigits n.natAbs) else String.mk (natDigits n.natAbs)

/-- Value of a run of decimal digit characters (model of Python `int` on a
digits-only string). -/
def digitsVal (l : List Char) : Nat :=
  l.foldl (fun a c => a * 10 + (c.toNat - 48)) 0

/-- Run of digits, all-digit test and value (model of `int` on an unsigned
digit string: at least one digit, nothing else). -/
def parseDigits (l : List Char) : Option Nat :=
  if l ≠ [] ∧ l.all Char.isDigit then some (digitsVal l) else none

/-- Optional sign followed by digits (model of `int` on a stripped string;
underscore digit grouping is not modelled, no input here uses it). -/
def parseSignedDigits (l : List Char) : Option Int :=
  match l with
  | [] => none
  | c :: rest =>
    if c = '-' then (parseDigits rest).map (fun n => -(n : Int))
    else if c = '+' then (parseDigits rest).map (fun n => (n : Int))
    else (parseDigits (c :: rest)).map (fun n => (n : Int))

/-- Model of Python `str.strip()`: drop leading and trailing whitespace. -/
def stripChars (l : List Char) : List Char :=
  ((l.dropWhile Char.isWhitespace).reverse.dropWhile Char.isWhitespace).reverse

/-- Model of Python `int(s.strip())`: `none` is a raised `ValueError`. -/
def pyParseInt (s : String) : Option Int :=
  parseSignedDigits (stripChars s.data)

/-- Match of the regex fragment `(\d+)\s+kw` anchored at the head of `l`:
a maximal nonempty digit run, a nonempty whitespace run, then the literal
keyword; `ci` is the `re.I` flag.  Returns the digit group's value. -/
def numBeforeAt (ci : Bool) (kw : List Char) (l : List Char) : Option Nat :=
  let ds := l.takeWhile Char.isDigit
  let r1 := l.dropWhile Char.isDigit
  if ds.isEmpty then none
  else
    let ws := r1.takeWhile Char.isWhitespace
    let r2 := r1.dropWhile Char.isWhitespace
    if ws.isEmpty then none
    else if kw.isPrefixOf (if ci then r2.map Char.toLower else r2) then some (digitsVal ds)
    else none

/-- Leftmost match of `(\d+)\s+kw` in `l` (model of `re.search`, and of the
first element of `re.findall`). -/
def searchNumBefore (ci : Bool) (kw : List Char) : List Char → Option Nat
  | [] => none
  | c :: cs =>
    match numBeforeAt ci kw (c :: cs) with
    | some n => some n
    | none => searchNumBefore ci kw cs

/-- Occurrence counter, structurally recursive on a fuel bound: the scan
consumes at least one character per step, so fuel `l.length` is enough. -/
def countSubFuel (pat : List Char) : Nat → List Char → Nat
  | 0, _ => 0
  | fuel + 1, l =>
    match l with
    | [] => 0
    | c :: cs =>
      if pat ≠ [] ∧ pat.isPrefixOf (c :: cs) then
        1 + countSubFuel pat fuel ((c :: cs).drop pat.length)
      else
        countSubFuel pat fuel cs

/-- Number of non-overlapping occurrences of a nonempty pattern, scanning
left to right (model of `len(re.findall(pat, s))` for a literal pattern). -/
def countSub (pat : List Char) (l : List Char) : Nat :=
  countSubFuel pat l.length l

/-- Whether `pat` occurs as a contiguous substring of `l` (model of Python
`pat in s`). -/
def containsSub (pat : List Char) : List Char → Bool
  | [] => pat.isEmpty
  | c :: cs => pat.isPrefixOf (c :: cs) || containsSub pat cs

/-- Model of Python `s.lower()` (ASCII case folding suffices here). -/
def lowerChars (l : List Char) : List Char := l.map Char.toLower

/-- The artifact directory: a partial map from path to file content. -/
abbrev FS := String → Option String

/-- Model of `safe_read` (both scripts): file content, or `""` if absent. -/
def safe_read (fs : FS) (p : String) : String := (fs p).getD ""

/-- Python float `round` with ties to even, modelled exactly on ℚ. -/
def pyRoundHalfEven (q : ℚ) : ℤ :=
  if q - ⌊q⌋ = 1 / 2 then (if ⌊q⌋ % 2 = 0 then ⌊q⌋ else ⌊q⌋ + 1) else round q

/-- Model of Python `round(x, 1)`. -/
def pyRound1 (q : ℚ) : ℚ := (pyRoundHalfEven (q * 10) : ℚ) / 10

/-! ## generate_report.py -/

namespace GenReport

/-- Path of the version counter file (`REPORT_DIR / "version.txt"`). -/
def VERSION_FILE : String := "report/version.txt"

/-- Model of `read_version` in generate_report.py: persisted counter, or 1
when the file is absent, or 1 when `int` raises `ValueError`. -/
def read_version (fs : FS) : Int :=
  match fs VERSION_FILE with
  | none => 1
  | some c => (pyParseInt c).getD 1

/-- Model of `increment_version`: read, add one, persist, return. -/
def increment_version (fs : FS) : Int × FS :=
  let version := read_version fs + 1
  (version, fun p => if p = VERSION_FILE then some (pyStr version) else fs p)

/-- The metrics `extract_summary` produces (the `summary` dict). -/
structure Summary where
  passed : Nat
  failed : Nat
  errors : Nat
  skipped : Nat
  rate : ℚ
  bandit_findings : Nat
  dep_vuln : Nat
  trivy_high : Nat
  zap_high : Nat
deriving DecidableEq, Repr

/-- The four pytest counters of `extract_summary` (lines 55–62): first
regex match of each pattern, defaulting to 0 on no match; the patterns in
this script carry no `re.I` flag. -/
def pytestCounters (text : String) : Nat × Nat × Nat × Nat :=
  ((searchNumBefore false "passed".data text.data).getD 0,
   (searchNumBefore false "failed".data text.data).getD 0,
   (searchNumBefore false "error".data text.data).getD 0,
   (searchNumBefore false "skipped".data text.data).getD 0)

/-- The `rate` entry of the summary (lines 63–65): percentage of passed
over the counter total, 0 when the total is 0, then `round(rate, 1)`. -/
def rateOf (p f e s : Nat) : ℚ :=
  pyRound1 (if p + f + e + s = 0 then 0 else (p : ℚ) / ((p + f + e + s : Nat) : ℚ) * 100)

/-- Model of `extract_summary` in generate_report.py: pytest counters and
rate when the log is non-empty, all-zero defaults otherwise, plus
literal-occurrence counts for the security reports. -/
def extract_summary (fs : FS) : Summary :=
  let pytest_log := safe_read fs "report/pytest_output.txt"
  let c :=
    if pytest_log ≠ "" then
      let pc := pytestCounters pytest_log
      (pc.1, pc.2.1, pc.2.2.1, pc.2.2.2, rateOf pc.1 pc.2.1 pc.2.2.1 pc.2.2.2)
    else (0, 0, 0, 0, (0 : ℚ))
  { passed := c.1
    failed := c.2.1
    errors := c.2.2.1
    skipped := c.2.2.2.1
    rate := c.2.2.2.2
    bandit_findings :=
      countSub "<tr class=\"issue\">".data (safe_read fs "report/bandit_report.html").data
    dep_vuln := countSub "|".data (safe_read fs "report/dependency_vuln.txt").data
    trivy_high := countSub "High".data (safe_read fs "report/trivy_report.txt").data
    zap_high := countSub "High".data (safe_read fs "report/zap_dast_report.html").data }

/-- Model of the status computed in `generate_html` (line 84): PASS when no
failures and no errors, FAIL otherwise. -/
def generate_html_status (summary : Summary) : String :=
  if summary.failed = 0 ∧ summary.errors = 0 then "PASS" else "FAIL"

end GenReport

/-- Modelled from the spec, for refinement comparison: "Pass rate =
passed / (passed+failed+errors+skipped) × 100, rounded to 1 decimal;
defined as 0 when total is 0". -/
def specRate (p f e s : Nat) : ℚ :=
  if p + f + e + s = 0 then 0
  else pyRound1 ((p : ℚ) / ((p + f + e + s : Nat) : ℚ) * 100)

/-! ## publish_report_confluence.py -/

namespace PubConf

/-- Path of the version counter file
(`os.path.join(REPORT_DIR, "version.txt")`). -/
def VERSION_FILE : String := "report/version.txt"

/-- Model of `read_version` in publish_report_confluence.py.  This variant
has no `try`/`except`: a malformed file makes `int` raise `ValueError`,
modelled as `none`. -/
def read_version (fs : FS) : Option Int :=
  match fs VERSION_FILE with
  | none => some 1
  | some c => pyParseInt c

/-- The pytest counters extracted by `extract_test_summary` (the patterns
carry the `re.I` flag here). -/
def testCounters (fs : FS) : Nat × Nat × Nat × Nat :=
  let text := safe_read fs "report/pytest_output.txt"
  let passed := (searchNumBefore true "passed".data text.data).getD 0
  let failed := (searchNumBefore true "failed".data text.data).getD 0
  let errors := (searchNumBefore true "error".data text.data).getD 0
  let skipped := (searchNumBefore true "skipped".data text.data).getD 0
  (passed, failed, errors, skipped)

/-- The `rate` local of `extract_test_summary` (line 62), before the
one-decimal display formatting. -/
def testRate (fs : FS) : ℚ :=
  let (passed, failed, errors, skipped) := testCounters fs
  let total := passed + failed + errors + skipped
  if total = 0 then 0 else (passed : ℚ) / (total : ℚ) * 100

/-- The `status` value returned by `extract_test_summary` (line 63). -/
def extract_test_summary_status (fs : FS) : String :=
  let (_, failed, errors, _) := testCounters fs
  if failed = 0 ∧ errors = 0 then "PASS" else "FAIL"

/-- A page held by the remote wiki. -/
structure Page where
  id : Nat
  space : String
  title : String
  version : Nat
  body : String
deriving DecidableEq, Repr

/-- An attachment held by the remote wiki. -/
structure Attachment where
  pageId : Nat
  name : String
  version : Nat
deriving DecidableEq, Repr

/-- Remote wiki state: pages, attachments, and the next page id the remote
would assign. -/
structure Wiki where
  pages : List Page
  atts : List Attachment
  nextId : Nat
deriving DecidableEq, Repr

/-- Remote `POST /rest/api/content` (page create): the remote rejects a
duplicate (space, title) with an HTTP error status — `raise_for_status`
then raises `HTTPError` in `create_confluence_page` — otherwise it stores
the page at version 1 and returns the new id. -/
def wikiCreatePage (w : Wiki) (space title body : String) : Except Unit (Nat × Wiki) :=
  if w.pages.any (fun p => p.space == space && p.title == title) then .error ()
  else
    .ok (w.nextId,
      { w with
        pages := w.pages ++ [{ id := w.nextId, space := space, title := title,
                               version := 1, body := body }]
        nextId := w.nextId + 1 })

/-- Remote `GET /rest/api/content?title=…&spaceKey=…`: exact-title search;
the id of the first result, if any (`res.json()["results"][0]["id"]`). -/
def wikiFindPage (w : Wiki) (space title : String) : Option Nat :=
  ((w.pages.filter (fun p => p.space == space && p.title == title)).head?).map (fun p => p.id)

/-- Remote `GET /rest/api/content/{id}/`. -/
def wikiGetPage (w : Wiki) (pid : Nat) : Option Page :=
  w.pages.find? (fun p => p.id == pid)

/-- The JSON payload `update_confluence_page` builds (lines 147–154). -/
structure UpdatePayload where
  id : Nat
  title : String
  space : String
  versionNumber : Nat
  body : String
deriving DecidableEq, Repr

/-- Model of `update_confluence_page`: GET the page (any failure there is
raised by `raise_for_status` and never caught), read `version.number` from
the fresh response, build the payload with that number plus one, PUT it;
the remote stores the payload's title, body and version number.  `netFail`
injects a network failure of the GET. -/
def update_confluence_page (w : Wiki) (netFail : Bool) (pid : Nat) (title space body : String) :
    Except Unit (UpdatePayload × Wiki) :=
  if netFail then .error ()
  else
    match wikiGetPage w pid with
    | none => .error ()
    | some page =>
      let payload : UpdatePayload :=
        { id := pid, title := title, space := space,
          versionNumber := page.version + 1, body := body }
      .ok (payload,
        { w with pages := w.pages.map (fun p =>
            if p.id == pid then
              { p with title := payload.title, version := payload.versionNumber,
                       body := payload.body }
            else p) })

/-- Requests the attachment endpoints can receive. -/
inductive AttReq where
  | queryAttachments (pageId : Nat) (filename : String)
  | createAttachment (pageId : Nat) (filename : String)
deriving DecidableEq, Repr

/-- Whether a request is a query of existing attachments. -/
def AttReq.isQuery : AttReq → Bool
  | .queryAttachments _ _ => true
  | .createAttachment _ _ => false

/-- Whether the page already holds an attachment under this filename. -/
def hasAttachment (w : Wiki) (pid : Nat) (name : String) : Bool :=
  w.atts.any (fun a => a.pageId == pid && a.name == name)

/-- The attachments a page holds under this filename. -/
def attachmentsNamed (w : Wiki) (pid : Nat) (name : String) : List Attachment :=
  w.atts.filter (fun a => a.pageId == pid && a.name == name)

/-- Remote `POST /rest/api/content/{id}/child/attachment`: the remote
rejects a create whose filename already exists on the page with a non-2xx
status; otherwise it stores a new attachment at version 1. -/
def wikiPostAttachment (w : Wiki) (pid : Nat) (name : String) : Except Unit Wiki :=
  if hasAttachment w pid name then .error ()
  else .ok { w with atts := w.atts ++ [{ pageId := pid, name := name, version := 1 }] }

/-- Log lines the publish script prints. -/
inductive PubLog where
  | createdPage (pid : Nat)
  | attemptingUpdate
  | updatedPage (newVersion : Nat)
  | cannotFindOrUpdate
  | uploaded (name : String)
  | uploadFailed (name : String)
deriving DecidableEq, Repr

/-- Model of `upload_attachment`: a single unconditional POST of the file
to the attachment endpoint — the requests it issues are returned as a
trace — logging a warning on a non-2xx status and a success line
otherwise; it never raises.  `netFail` injects a network failure (an error
status) on this POST. -/
def upload_attachment (w : Wiki) (netFail : Bool) (pid : Nat) (name : String) :
    Wiki × PubLog × List AttReq :=
  let trace := [AttReq.createAttachment pid name]
  if netFail then (w, .uploadFailed name, trace)
  else
    match wikiPostAttachment w pid name with
    | .error _ => (w, .uploadFailed name, trace)
    | .ok w2 => (w2, .uploaded name, trace)

/-- Injected network failures for one publish run: an HTTP error status at
page create, at the title search, at the update's GET, or at the upload of
a given artifact name. -/
structure NetFaults where
  createFails : Bool
  findFails : Bool
  updateFails : Bool
  uploadFails : String → Bool

/-- No injected failures. -/
def NetFaults.none : NetFaults :=
  { createFails := false, findFails := false, updateFails := false,
    uploadFails := fun _ => false }

/-- Result of one run of the publish `__main__` block.  `crashed` records
an exception escaping the script (including the `NameError` on the unbound
`page_id`). -/
structure PubRun where
  pageId : Option Nat
  wiki : Wiki
  uploadsAttempted : List String
  log : List PubLog
  crashed : Bool
deriving Repr

/-- Model of Python `str.endswith`: the suffix read backwards is a prefix
of the string read backwards. -/
def strEndsWith (s suffix : String) : Bool :=
  suffix.data.reverse.isPrefixOf s.data.reverse

/-- The artifact filter of the upload loop
(`file.endswith((".html", ".pdf"))`). -/
def isArtifact (name : String) : Bool :=
  strEndsWith name ".html" || strEndsWith name ".pdf"

/-- The upload loop of the publish `__main__` (lines 203–205): uploads
every matching artifact in order; a failed upload only logs its warning
and the loop continues with the next file. -/
def uploadLoop (w : Wiki) (faults : NetFaults) (pid : Nat) : List String → Wiki × List PubLog
  | [] => (w, [])
  | f :: fsr =>
    if isArtifact f then
      let r := upload_attachment w (faults.uploadFails f) pid f
      let rest := uploadLoop r.1 faults pid fsr
      (rest.1, r.2.1 :: rest.2)
    else
      uploadLoop w faults pid fsr

/-- Model of the publish `__main__` (lines 187–207).  The create is
attempted with the version-suffixed title `f"{CONFLUENCE_TITLE} v{version}"`;
on an `HTTPError` the fallback searches for the bare `CONFLUENCE_TITLE`
and updates the first hit.  When the search response is not ok or has no
results, only a message is printed and `page_id` stays unbound, so the
upload loop's first iteration raises `NameError`; a failure inside
`update_confluence_page` is raised inside the `except` handler and also
aborts the run. -/
def publish_main (w : Wiki) (faults : NetFaults) (space title : String) (version : Int)
    (body : String) (files : List String) : PubRun :=
  let createTitle := title ++ " v" ++ pyStr version
  let createRes :=
    if faults.createFails then Except.error () else wikiCreatePage w space createTitle body
  match createRes with
  | .ok (pid, w1) =>
    let rest := uploadLoop w1 faults pid files
    { pageId := some pid, wiki := rest.1,
      uploadsAttempted := files.filter isArtifact,
      log := .createdPage pid :: rest.2, crashed := false }
  | .error _ =>
    let found := if faults.findFails then Option.none else wikiFindPage w space title
    match found with
    | none =>
      { pageId := none, wiki := w, uploadsAttempted := [],
        log := [.attemptingUpdate, .cannotFindOrUpdate],
        crashed := !(files.filter isArtifact).isEmpty }
    | some pid =>
      match update_confluence_page w faults.updateFails pid title space body with
      | .error _ =>
        { pageId := some pid, wiki := w, uploadsAttempted := [],
          log := [.attemptingUpdate], crashed := true }
      | .ok (payload, w1) =>
        let rest := uploadLoop w1 faults pid files
        { pageId := some pid, wiki := rest.1,
          uploadsAttempted := files.filter isArtifact,
          log := .attemptingUpdate :: .updatedPage payload.versionNumber :: rest.2,
          crashed := false }

end PubConf

/-! ## send_report_email.py -/

namespace SendEmail

/-- Model of `detect_status`: a substring check of `"failed"` on the
lowercased pytest log; UNKNOWN when the log file is absent. -/
def detect_status (fs : FS) : String :=
  match fs "report/pytest_output.txt" with
  | some content =>
    if containsSub "failed".data (lowerChars content.data) then "FAIL" else "PASS"
  | none => "UNKNOWN"

/-- Model of `detect_version`: stripped version-file content, or "N/A". -/
def detect_version (fs : FS) : String :=
  match fs "report/version.txt" with
  | some c => String.mk (stripChars c.data)
  | none => "N/A"

/-- Outcome of one run of the notifier's `__main__` block. -/
structure RunResult where
  exitCode : Nat
  sendAttempted : Bool
  transportErrorLogged : Bool
  raised : Bool
deriving DecidableEq, Repr

/-- Model of the `__main__` block of send_report_email.py, with the
attachment list already globbed and the SMTP transport's outcome given as
`Except` (the error is the exception smtplib raises).  With no files the
script prints a message and calls `exit(1)` before any send.  Otherwise
the send is attempted inside `try`; the `except Exception` block only
prints, and the script then falls off the end, so the process exit code is
0 even when the transport failed, and no exception escapes. -/
def mainRun (files : List String) (transport : Except String Unit) : RunResult :=
  if files.isEmpty then
    { exitCode := 1, sendAttempted := false, transportErrorLogged := false, raised := false }
  else
    match transport with
    | .ok _ =>
      { exitCode := 0, sendAttempted := true, transportErrorLogged := false, raised := false }
    | .error _ =>
      { exitCode := 0, sendAttempted := true, transportErrorLogged := true, raised := false }

end SendEmail

/-! ## app/app.py -/

namespace FlaskApp

/-- Model of `sanitize_input`: strip, then delete every `<`, `>`, double
quote and single quote (`re.sub(r"[<>\"']", "", value.strip())`). -/
def sanitize_input (s : String) : String :=
  String.mk ((stripChars s.data).filter
    (fun c => !(c == '<' || c == '>' || c == '"' || c == '\x27')))

/-- An HTTP request to the Flask app: path, method, login form fields and
the session cookie's user entry. -/
structure HttpRequest where
  path : String
  methodPost : Bool
  formUsername : String
  formPassword : String
  sessionUser : Option String
deriving Repr

/-- An HTTP response: status, headers and the rendered template, if any. -/
structure HttpResponse where
  status : Nat
  headers : List (String × String)
  template : Option String
deriving Repr

/-- First value stored under a header name. -/
def headerGet (hs : List (String × String)) (k : String) : Option String :=
  (hs.find? (fun p => p.1 == k)).map (fun p => p.2)

/-- Model of `response.headers[k] = v`: overwrite in place, or append. -/
def setHeader (hs : List (String × String)) (k v : String) : List (String × String) :=
  if hs.any (fun p => p.1 == k) then
    hs.map (fun p => if p.1 == k then (k, v) else p)
  else hs ++ [(k, v)]

/-- A Flask redirect response. -/
def redirectResp (url : String) : HttpResponse :=
  { status := 302, headers := [("Location", url)], template := none }

/-- A rendered template response. -/
def renderResp (tpl : String) (status : Nat) : HttpResponse :=
  { status := status, headers := [("Content-Type", "text/html")], template := some tpl }

/-- Route dispatch of app.py before the after-request hook, covering `/`,
`/login` (GET and POST), `/dashboard`, `/logout`, `/health` and the 404
handler.  The credential store (username to password hash, the `USERS`
dict) and werkzeug's `check_password_hash` are parameters. -/
def dispatch (users : String → Option String) (checkHash : String → String → Bool)
    (r : HttpRequest) : HttpResponse :=
  if r.path == "/" then
    if r.sessionUser.isSome then redirectResp "/dashboard" else redirectResp "/login"
  else if r.path == "/login" then
    if r.methodPost then
      let username := sanitize_input r.formUsername
      let password := sanitize_input r.formPassword
      match users username with
      | some h =>
        if checkHash h password then redirectResp "/dashboard" else renderResp "login.html" 200
      | none => renderResp "login.html" 200
    else renderResp "login.html" 200
  else if r.path == "/dashboard" then
    match r.sessionUser with
    | some _ => renderResp "dashboard.html" 200
    | none => redirectResp "/login"
  else if r.path == "/logout" then redirectResp "/login"
  else if r.path == "/health" then
    { status := 200, headers := [("Content-Type", "application/json")], template := none }
  else renderResp "404.html" 404

/-- Model of `apply_security_headers` (the `after_request` hook): sets the
five OWASP headers unconditionally on every outgoing response. -/
def apply_security_headers (resp : HttpResponse) : HttpResponse :=
  let hs := resp.headers
  let hs := setHeader hs "X-Frame-Options" "DENY"
  let hs := setHeader hs "X-Content-Type-Options" "nosniff"
  let hs := setHeader hs "Referrer-Policy" "no-referrer"
  let hs := setHeader hs "X-XSS-Protection" "1; mode=block"
  let hs := setHeader hs "Content-Security-Policy"
    "default-src \x27self\x27; style-src \x27self\x27 \x27unsafe-inline\x27;"
  { resp with headers := hs }

/-- A full request-handling pass: route dispatch, then the after-request
hook, as Flask composes them. -/
def handle (users : String → Option String) (checkHash : String → String → Bool)
    (r : HttpRequest) : HttpResponse :=
  apply_security_headers (dispatch users checkHash r)

end FlaskApp

/-! ## Concrete fixtures used by individual claim theorems -/

/-- Concrete artifact directory whose pytest log is `"2 errors"`. -/
def fsErrorsOnly : FS :=
  fun p => if p = "report/pytest_output.txt" then some "2 errors" else none

/-- Concrete artifact directory whose version file holds `"abc"`. -/
def fsBadVersion : FS :=
  fun p => if p = "report/version.txt" then some "abc" else none

/-- A wiki with one page at version 3, for exercising the update path. -/
def wikiOnePage : PubConf.Wiki :=
  { pages := [{ id := 7, space := "DEMO", title := "Release Notes", version := 3,
                body := "old" }],
    atts := [], nextId := 8 }

/-- A wiki whose page 5 already holds the attachment `report.html`. -/
def wikiWithAttachment : PubConf.Wiki :=
  { pages := [], atts := [{ pageId := 5, name := "report.html", version := 1 }], nextId := 0 }

/-- The empty remote wiki. -/
def wikiEmpty : PubConf.Wiki := { pages := [], atts := [], nextId := 0 }

/-- First publish run from the empty wiki (version 1, one artifact). -/
def firstPublishRun : PubConf.PubRun :=
  PubConf.publish_main wikiEmpty PubConf.NetFaults.none "DEMO" "Test Result Report" 1 "<p/>"
    ["test_result_report_v1.html"]

/-- Second publish run over the state the first run left behind. -/
def secondPublishRun : PubConf.PubRun :=
  PubConf.publish_main firstPublishRun.wiki PubConf.NetFaults.none "DEMO" "Test Result Report"
    1 "<p/>" ["test_result_report_v1.html"]

/-- A wiki already holding the version-suffixed page, so the create step
conflicts exactly as on a rerun. -/
def wikiSuffixedPage : PubConf.Wiki :=
  { pages := [{ id := 7, space := "DEMO", title := "Test Result Report v1", version := 3,
                body := "x" }],
    atts := [], nextId := 8 }

/-- Faults injecting a single network failure, at the title search. -/
def faultsFindFails : PubConf.NetFaults :=
  { createFails := false, findFails := true, updateFails := false,
    uploadFails := fun _ => false }

/-- The publish run hit by the single find-step failure. -/
def findFailureRun : PubConf.PubRun :=
  PubConf.publish_main wikiSuffixedPage faultsFindFails "DEMO" "Test Result Report" 1 "b"
    ["a.html", "b.pdf"]

/-! ## Helper lemmas -/

theorem pyRoundHalfEven_nonneg {x : ℚ} (hx : 0 ≤ x) : 0 ≤ pyRoundHalfEven x := by
  have hfl : (0 : ℤ) ≤ ⌊x⌋ := Int.le_floor.2 (by exact_mod_cast hx)
  unfold pyRoundHalfEven
  split
  · split <;> omega
  · rw [round_eq]
    exact Int.le_floor.2 (by push_cast; linarith)

theorem pyRoundHalfEven_le_of_le {x : ℚ} {B : ℤ} (hx : x ≤ B) : pyRoundHalfEven x ≤ B := by
  unfold pyRoundHalfEven
  split
  case isTrue h =>
    have hq : (⌊x⌋ : ℚ) = x - 1 / 2 := by linarith
    have hlt : (⌊x⌋ : ℚ) < B := by rw [hq]; linarith
    have hfl : ⌊x⌋ < B := by exact_mod_cast hlt
    split <;> omega
  case isFalse h =>
    rw [round_eq]
    have hfl : ⌊x + 1 / 2⌋ < B + 1 := Int.floor_lt.2 (by push_cast; linarith)
    omega

theorem pyRound1_nonneg {q : ℚ} (h : 0 ≤ q) : 0 ≤ pyRound1 q := by
  unfold pyRound1
  have := pyRoundHalfEven_nonneg (x := q * 10) (by linarith)
  have hc : (0 : ℚ) ≤ (pyRoundHalfEven (q * 10) : ℚ) := by exact_mod_cast this
  linarith

theorem pyRound1_le_hundred {q : ℚ} (h : q ≤ 100) : pyRound1 q ≤ 100 := by
  unfold pyRound1
  have := pyRoundHalfEven_le_of_le (x := q * 10) (B := 1000) (by push_cast; linarith)
  have hc : (pyRoundHalfEven (q * 10) : ℚ) ≤ 1000 := by exact_mod_cast this
  linarith

theorem pyRound1_zero : pyRound1 0 = 0 := by
  unfold pyRound1 pyRoundHalfEven
  norm_num

namespace FlaskApp

theorem find?_map_keep_of_any {hs : List (String × String)} {k v : String}
    (h : hs.any (fun p => p.1 == k) = true) :
    (hs.map (fun p => if p.1 == k then (k, v) else p)).find? (fun p => p.1 == k) =
      some (k, v) := by
  induction hs with
  | nil => simp at h
  | cons p t ih =>
    by_cases hp : p.1 = k
    · simp [List.find?_cons, hp]
    · have ht : t.any (fun r => r.1 == k) = true := by
        simp only [List.any_cons, beq_iff_eq] at h
        simpa [hp] using h
      simpa [List.find?_cons, hp] using ih ht

theorem headerGet_setHeader_self (hs : List (String × String)) (k v : String) :
    headerGet (setHeader hs k v) k = some v := by
  unfold setHeader headerGet
  split
  case isTrue h =>
    rw [find?_map_keep_of_any h]
    rfl
  case isFalse h =>
    have hnone : hs.find? (fun p => p.1 == k) = none := by
      rw [List.find?_eq_none]
      intro x hx hpx
      exact h (List.any_eq_true.2 ⟨x, hx, hpx⟩)
    rw [List.find?_append, hnone]
    simp [List.find?_cons]

theorem headerGet_setHeader_other (hs : List (String × String)) (v : String) {k q : String}
    (hne : q ≠ k) :
    headerGet (setHeader hs k v) q = headerGet hs q := by
  unfold setHeader headerGet
  split
  case isTrue h =>
    rw [List.find?_map]
    have hfun : ((fun p : String × String => p.1 == q) ∘
        (fun p : String × String => if p.1 == k then (k, v) else p)) =
        (fun p : String × String => p.1 == q) := by
      funext p
      by_cases hp : p.1 = k
      · simp [hp, Ne.symm hne]
      · simp [hp]
    rw [hfun, Option.map_map]
    rcases hfind : hs.find? (fun p => p.1 == q) with _ | p
    · rw [hfind]; rfl
    · have hq : p.1 = q := by simpa using List.find?_some hfind
      have hpk : ¬ p.1 = k := by rw [hq]; exact hne
      rw [hfind]
      simp [hpk]
  case isFalse h =>
    rw [List.find?_append]
    have h1 : List.find? (fun p => p.1 == q) [(k, v)] = none := by
      simp [List.find?_cons, Ne.symm hne]
    rw [h1]
    rcases hs.find? (fun p => p.1 == q) <;> simp

end FlaskApp

/-- C10: every HTTP response the Flask login app returns — for every route,
method, credential store, session state and the 404 handler alike — carries
the five security headers with the exact values set by the unconditional
after-request hook `apply_security_headers`. -/
theorem C10_security_headers_on_every_response
    (users : String → Option String) (checkHash : String → String → Bool)
    (r : FlaskApp.HttpRequest) :
    FlaskApp.headerGet (FlaskApp.handle users checkHash r).headers "X-Frame-Options"
        = some "DENY" ∧
    FlaskApp.headerGet (FlaskApp.handle users checkHash r).headers "X-Content-Type-Options"
        = some "nosniff" ∧
    FlaskApp.headerGet (FlaskApp.handle users checkHash r).headers "Referrer-Policy"
        = some "no-referrer" ∧
    FlaskApp.headerGet (FlaskApp.handle users checkHash r).headers "X-XSS-Protection"
        = some "1; mode=block" ∧
    FlaskApp.headerGet (FlaskApp.handle users checkHash r).headers "Content-Security-Policy"
        = some "default-src \x27self\x27; style-src \x27self\x27 \x27unsafe-inline\x27;" := by
  unfold FlaskApp.handle FlaskApp.apply_security_headers
  refine ⟨?_, ?_, ?_, ?_, ?_⟩
  · rw [FlaskApp.headerGet_setHeader_other, FlaskApp.headerGet_setHeader_other,
      FlaskApp.headerGet_setHeader_other, FlaskApp.headerGet_setHeader_other,
      FlaskApp.headerGet_setHeader_self] <;> decide
  · rw [FlaskApp.headerGet_setHeader_other, FlaskApp.headerGet_setHeader_other,
      FlaskApp.headerGet_setHeader_other, FlaskApp.headerGet_setHeader_self] <;> decide
  · rw [FlaskApp.headerGet_setHeader_other, FlaskApp.headerGet_setHeader_other,
      FlaskApp.headerGet_setHeader_self] <;> decide
  · rw [FlaskApp.headerGet_setHeader_other, FlaskApp.headerGet_setHeader_self]
    all_goals decide
  · rw [FlaskApp.headerGet_setHeader_self]

/-- The PASS/FAIL decision shared by `generate_html` and
`extract_test_summary`. -/
theorem status_fail_iff (f e : Nat) :
    (if f = 0 ∧ e = 0 then "PASS" else "FAIL") = ("FAIL" : String) ↔ (f > 0 ∨ e > 0) := by
  split
  case isTrue h =>
    simp [h.1, h.2]
  case isFalse h =>
    constructor
    · intro _
      omega
    · intro _
      rfl

/-- C4 counterexample: with a pytest log of `"2 errors"` the extracted
counters are (passed 0, failed 0, errors 2, skipped 0), so the claim
demands FAIL in every status site, yet the notifier's `detect_status`
(which feeds the email subject) returns PASS because the substring
`"failed"` does not occur in the log. -/
theorem C4_email_status_ignores_errors_counterexample :
    PubConf.testCounters fsErrorsOnly = (0, 0, 2, 0) ∧
    SendEmail.detect_status fsErrorsOnly = "PASS" ∧
    ("PASS" : String) ≠ "FAIL" := by
  refine ⟨by decide, by decide, by decide⟩

/-- C4 amended: the FAIL-iff-(failed>0 or errors>0) rule holds at the two
counter-based status sites (`generate_html` and `extract_test_summary`),
but the status in the email subject is computed by `detect_status` as a
plain substring test: FAIL exactly when `"failed"` occurs in the lowercased
log, regardless of the counters. -/
theorem C4_status_rule_amended (fs : FS) :
    (GenReport.generate_html_status (GenReport.extract_summary fs) = "FAIL" ↔
      ((GenReport.extract_summary fs).failed > 0 ∨ (GenReport.extract_summary fs).errors > 0)) ∧
    (PubConf.extract_test_summary_status fs = "FAIL" ↔
      ((PubConf.testCounters fs).2.1 > 0 ∨ (PubConf.testCounters fs).2.2.1 > 0)) ∧
    (∀ c, fs "report/pytest_output.txt" = some c →
      (SendEmail.detect_status fs = "FAIL" ↔
        containsSub "failed".data (lowerChars c.data) = true)) := by
  refine ⟨?_, ?_, ?_⟩
  · exact status_fail_iff _ _
  · exact status_fail_iff _ _
  · intro c hc
    have hd : SendEmail.detect_status fs =
        if containsSub "failed".data (lowerChars c.data) then "FAIL" else "PASS" := by
      unfold SendEmail.detect_status
      rw [hc]
    rw [hd]
    by_cases h : containsSub "failed".data (lowerChars c.data) = true
    · simp [h]
    · simp [h]

/-- C4 witness: the amended email-status rule applied at the concrete
directory whose log is `"2 errors"`. -/
theorem C4_status_rule_amended_witness :
    SendEmail.detect_status fsErrorsOnly = "FAIL" ↔
      containsSub "failed".data (lowerChars "2 errors".data) = true :=
  (C4_status_rule_amended fsErrorsOnly).2.2 "2 errors" rfl

/-- C8 counterexample: a run with one attachment whose SMTP send raises is
caught and logged, but the process exit code is 0, not non-zero as the
claim requires. -/
theorem C8_transport_error_exits_zero_counterexample :
    SendEmail.mainRun ["report.html"] (Except.error "boom") =
      { exitCode := 0, sendAttempted := true, transportErrorLogged := true,
        raised := false } := by
  decide

/-- C8 amended: the notifier exits non-zero exactly when there are zero
attachments (and then no send is attempted); a transport error is caught
and logged and never propagates past the top level, but the process then
exits 0, not non-zero. -/
theorem C8_exit_code_amended (files : List String) (t : Except String Unit) :
    ((SendEmail.mainRun files t).exitCode ≠ 0 ↔ files = []) ∧
    (SendEmail.mainRun files t).raised = false ∧
    (files = [] → (SendEmail.mainRun files t).sendAttempted = false) ∧
    (∀ e, t = Except.error e →
      files ≠ [] →
      (SendEmail.mainRun files t).transportErrorLogged = true ∧
      (SendEmail.mainRun files t).exitCode = 0) := by
  unfold SendEmail.mainRun
  rcases files with _ | ⟨f, fr⟩ <;> rcases t with _ | e <;> simp

/-- C8 witness: the amended exit-code rule applied to a singleton
attachment list and a failing transport. -/
theorem C8_exit_code_amended_witness :
    (SendEmail.mainRun ["report.html"] (Except.error "boom")).transportErrorLogged = true ∧
    (SendEmail.mainRun ["report.html"] (Except.error "boom")).exitCode = 0 :=
  (C8_exit_code_amended ["report.html"] (Except.error "boom")).2.2.2 "boom" rfl
    (by decide)

/-- C7: when every known input file is absent, `extract_summary` returns
the all-zero summary with pass rate 0 (and, being a total function of the
directory map, raises nothing). -/
theorem C7_missing_artifacts_all_zero (fs : FS)
    (h1 : fs "report/pytest_output.txt" = none)
    (h2 : fs "report/bandit_report.html" = none)
    (h3 : fs "report/dependency_vuln.txt" = none)
    (h4 : fs "report/trivy_report.txt" = none)
    (h5 : fs "report/zap_dast_report.html" = none) :
    GenReport.extract_summary fs =
      { passed := 0, failed := 0, errors := 0, skipped := 0, rate := 0,
        bandit_findings := 0, dep_vuln := 0, trivy_high := 0, zap_high := 0 } := by
  unfold GenReport.extract_summary safe_read
  rw [h1, h2, h3, h4, h5]
  rfl

/-- C7 witness: the empty artifact directory. -/
theorem C7_missing_artifacts_all_zero_witness :
    GenReport.extract_summary (fun _ => none) =
      { passed := 0, failed := 0, errors := 0, skipped := 0, rate := 0,
        bandit_findings := 0, dep_vuln := 0, trivy_high := 0, zap_high := 0 } :=
  C7_missing_artifacts_all_zero (fun _ => none) rfl rfl rfl rfl rfl

theorem rate_raw_bounds {p f e s : Nat} (h : p + f + e + s ≠ 0) :
    0 ≤ (p : ℚ) / ((p + f + e + s : Nat) : ℚ) * 100 ∧
      (p : ℚ) / ((p + f + e + s : Nat) : ℚ) * 100 ≤ 100 := by
  have ht : (0 : ℚ) < ((p + f + e + s : Nat) : ℚ) := by
    exact_mod_cast Nat.pos_of_ne_zero h
  have hp : (p : ℚ) ≤ ((p + f + e + s : Nat) : ℚ) := by
    exact_mod_cast Nat.le_add_right p (f + e + s) |>.trans (by omega)
  constructor
  · positivity
  · have hdiv : (p : ℚ) / ((p + f + e + s : Nat) : ℚ) ≤ 1 := (div_le_one ht).2 hp
    nlinarith

theorem rateOf_bounds_and_spec (p f e s : Nat) :
    0 ≤ GenReport.rateOf p f e s ∧ GenReport.rateOf p f e s ≤ 100 ∧
      GenReport.rateOf p f e s = specRate p f e s := by
  unfold GenReport.rateOf specRate
  by_cases h : p + f + e + s = 0
  · simp [h, pyRound1_zero]
  · rcases rate_raw_bounds (p := p) (f := f) (e := e) (s := s) h with ⟨hl, hr⟩
    rw [if_neg h, if_neg h]
    exact ⟨pyRound1_nonneg hl, pyRound1_le_hundred hr, rfl⟩

theorem extract_summary_rate_eq (fs : FS) :
    (GenReport.extract_summary fs).rate =
      GenReport.rateOf (GenReport.extract_summary fs).passed
        (GenReport.extract_summary fs).failed (GenReport.extract_summary fs).errors
        (GenReport.extract_summary fs).skipped := by
  unfold GenReport.extract_summary
  dsimp only
  by_cases h : safe_read fs "report/pytest_output.txt" ≠ ""
  · rw [if_pos h]
  · rw [if_neg h]
    show (0 : ℚ) = GenReport.rateOf 0 0 0 0
    unfold GenReport.rateOf
    norm_num [pyRound1_zero]

theorem testRate_bounds (fs : FS) : 0 ≤ PubConf.testRate fs ∧ PubConf.testRate fs ≤ 100 := by
  rcases htc : PubConf.testCounters fs with ⟨p, f, e, s⟩
  have heq : PubConf.testRate fs =
      if p + f + e + s = 0 then 0 else (p : ℚ) / ((p + f + e + s : Nat) : ℚ) * 100 := by
    unfold PubConf.testRate
    rw [htc]
  rw [heq]
  by_cases h : p + f + e + s = 0
  · rw [if_pos h]
    norm_num
  · rw [if_neg h]
    exact rate_raw_bounds h

/-- C5: the pass rate computed by `extract_summary` always lies in
[0, 100] and coincides with the spec formula
passed/(passed+failed+errors+skipped)×100 rounded to one decimal (0 when
the total is 0); the raw rate of `extract_test_summary` in the publish
script obeys the same bounds. -/
theorem C5_pass_rate_in_range_and_matches_spec (fs : FS) :
    0 ≤ (GenReport.extract_summary fs).rate ∧
    (GenReport.extract_summary fs).rate ≤ 100 ∧
    (GenReport.extract_summary fs).rate =
      specRate (GenReport.extract_summary fs).passed (GenReport.extract_summary fs).failed
        (GenReport.extract_summary fs).errors (GenReport.extract_summary fs).skipped ∧
    0 ≤ PubConf.testRate fs ∧ PubConf.testRate fs ≤ 100 := by
  rcases extract_summary_rate_eq fs with hrate
  rcases rateOf_bounds_and_spec (GenReport.extract_summary fs).passed
    (GenReport.extract_summary fs).failed (GenReport.extract_summary fs).errors
    (GenReport.extract_summary fs).skipped with ⟨hl, hr, hspec⟩
  rcases testRate_bounds fs with ⟨hpl, hpr⟩
  rw [hrate]
  exact ⟨hl, hr, hspec, hpl, hpr⟩

theorem upload_attachment_hit (w : PubConf.Wiki) (pid : Nat) (name : String)
    (h : PubConf.hasAttachment w pid name = true) :
    PubConf.upload_attachment w false pid name =
      (w, PubConf.PubLog.uploadFailed name, [PubConf.AttReq.createAttachment pid name]) := by
  unfold PubConf.upload_attachment PubConf.wikiPostAttachment
  rw [h]
  rfl

theorem upload_attachment_miss (w : PubConf.Wiki) (pid : Nat) (name : String)
    (h : PubConf.hasAttachment w pid name = false) :
    PubConf.upload_attachment w false pid name =
      ({ w with atts := w.atts ++ [{ pageId := pid, name := name, version := 1 }] },
       PubConf.PubLog.uploaded name, [PubConf.AttReq.createAttachment pid name]) := by
  unfold PubConf.upload_attachment PubConf.wikiPostAttachment
  rw [h]
  rfl

/-- C3: for every remote state holding the page, `update_confluence_page`
reads the page's current remote version from a fresh GET of that very
state and writes exactly that version plus one in its PUT payload; the
stored remote version afterwards is the fresh version plus one. -/
theorem C3_update_writes_freshly_read_version_plus_one
    (w : PubConf.Wiki) (pid : Nat) (title space body : String) (page : PubConf.Page)
    (hpage : PubConf.wikiGetPage w pid = some page) :
    ∃ w2 : PubConf.Wiki,
      PubConf.update_confluence_page w false pid title space body =
        Except.ok ({ id := pid, title := title, space := space,
                     versionNumber := page.version + 1, body := body }, w2) ∧
      (PubConf.wikiGetPage w2 pid).map (fun p => p.version) = some (page.version + 1) := by
  have hid : (page.id == pid) = true := by
    have := List.find?_some hpage
    simpa using this
  have hupd : PubConf.update_confluence_page w false pid title space body =
      Except.ok ({ id := pid, title := title, space := space,
                   versionNumber := page.version + 1, body := body },
        { w with pages := w.pages.map (fun p => if p.id == pid then
            { p with title := title, version := page.version + 1, body := body } else p) }) := by
    unfold PubConf.update_confluence_page
    rw [hpage]
    rfl
  refine ⟨_, hupd, ?_⟩
  unfold PubConf.wikiGetPage at hpage ⊢
  rw [List.find?_map]
  have hfun : ((fun p : PubConf.Page => p.id == pid) ∘
      (fun p : PubConf.Page => if p.id == pid then
        { p with title := title, version := page.version + 1, body := body } else p)) =
      (fun p : PubConf.Page => p.id == pid) := by
    funext p
    by_cases hp : p.id = pid
    · simp [hp]
    · simp [hp]
  rw [hfun, hpage]
  have hid2 : page.id = pid := by simpa using hid
  simp [hid2]

/-- C3 witness: updating the one-page wiki at page 7, currently at remote
version 3, writes payload version 4 and the stored version becomes 4. -/
theorem C3_update_writes_freshly_read_version_plus_one_witness :
    ∃ w2 : PubConf.Wiki,
      PubConf.update_confluence_page wikiOnePage false 7 "Release Notes" "DEMO" "new" =
        Except.ok ({ id := 7, title := "Release Notes", space := "DEMO",
                     versionNumber := 3 + 1, body := "new" }, w2) ∧
      (PubConf.wikiGetPage w2 7).map (fun p => p.version) = some (3 + 1) :=
  C3_update_writes_freshly_read_version_plus_one wikiOnePage 7 "Release Notes" "DEMO" "new"
    { id := 7, space := "DEMO", title := "Release Notes", version := 3, body := "old" }
    (by decide)

/-- C2 counterexample: on a remote state where page 5 already holds
`report.html`, the upload operation still issues a single unconditional
create request — it performs no query of existing attachments at all —
and the outcome is a logged failure with the state unchanged, not a
replace-in-place. -/
theorem C2_upload_queries_nothing_counterexample :
    (PubConf.upload_attachment wikiWithAttachment false 5 "report.html").2.2 =
      [PubConf.AttReq.createAttachment 5 "report.html"] ∧
    ((PubConf.upload_attachment wikiWithAttachment false 5 "report.html").2.2.all
      (fun q => !q.isQuery)) = true ∧
    (PubConf.upload_attachment wikiWithAttachment false 5 "report.html").1 =
      wikiWithAttachment ∧
    (PubConf.upload_attachment wikiWithAttachment false 5 "report.html").2.1 =
      PubConf.PubLog.uploadFailed "report.html" := by
  decide

/-- C2 amended: `upload_attachment` posts the file unconditionally — its
request trace is a single create, never a query by filename — so
uploading the same filename twice leaves exactly one attachment under
that name only because the remote rejects the duplicate create; the
second upload is logged as a failure and nothing is replaced in place. -/
theorem C2_upload_unconditional_post_amended (w : PubConf.Wiki) (pid : Nat) (name : String) :
    (PubConf.upload_attachment w false pid name).2.2 =
      [PubConf.AttReq.createAttachment pid name] ∧
    (∀ q ∈ (PubConf.upload_attachment w false pid name).2.2, q.isQuery = false) ∧
    (PubConf.hasAttachment w pid name = true →
      (PubConf.upload_attachment w false pid name).1 = w ∧
      (PubConf.upload_attachment w false pid name).2.1 = PubConf.PubLog.uploadFailed name) ∧
    (PubConf.hasAttachment w pid name = false →
      (PubConf.attachmentsNamed
        (PubConf.upload_attachment
          (PubConf.upload_attachment w false pid name).1 false pid name).1 pid name).length
        = 1 ∧
      (PubConf.upload_attachment
        (PubConf.upload_attachment w false pid name).1 false pid name).2.1 =
        PubConf.PubLog.uploadFailed name) := by
  by_cases hhas : PubConf.hasAttachment w pid name = true
  · rw [upload_attachment_hit w pid name hhas]
    refine ⟨rfl, ?_, fun _ => ⟨rfl, rfl⟩, fun hno => absurd hhas (by simp [hno])⟩
    intro q hq
    rw [List.mem_singleton] at hq
    subst hq
    rfl
  · have hno : PubConf.hasAttachment w pid name = false := by
      revert hhas
      rcases PubConf.hasAttachment w pid name <;> simp
    rw [upload_attachment_miss w pid name hno]
    have hhas2 : PubConf.hasAttachment
        { w with atts := w.atts ++ [{ pageId := pid, name := name, version := 1 }] }
        pid name = true := by
      unfold PubConf.hasAttachment
      simp [List.any_append]
    refine ⟨rfl, ?_, fun htrue => absurd htrue (by simp [hno]), fun _ => ?_⟩
    · intro q hq
      rw [List.mem_singleton] at hq
      subst hq
      rfl
    · rw [upload_attachment_hit _ pid name hhas2]
      constructor
      · unfold PubConf.attachmentsNamed
        simp only [List.filter_append]
        have hnil : w.atts.filter (fun a => a.pageId == pid && a.name == name) = [] := by
          rw [List.filter_eq_nil_iff]
          intro a ha hpa
          have hany : w.atts.any (fun a => a.pageId == pid && a.name == name) = true :=
            List.any_eq_true.2 ⟨a, ha, hpa⟩
          unfold PubConf.hasAttachment at hno
          rw [hany] at hno
          cases hno
        rw [hnil]
        simp
      · rfl

/-- C2 witness: one concrete double upload of `report.html` to an empty
page: afterwards exactly one attachment carries that name and the second
upload was logged as a failure. -/
theorem C2_upload_unconditional_post_amended_witness :
    (PubConf.attachmentsNamed
      (PubConf.upload_attachment
        (PubConf.upload_attachment wikiEmpty false 5 "report.html").1 false 5
        "report.html").1 5 "report.html").length = 1 ∧
    (PubConf.upload_attachment
      (PubConf.upload_attachment wikiEmpty false 5 "report.html").1 false 5
      "report.html").2.1 = PubConf.PubLog.uploadFailed "report.html" :=
  (C2_upload_unconditional_post_amended wikiEmpty 5 "report.html").2.2.2 (by decide)

theorem uploadLoop_logs_each_failure (faults : PubConf.NetFaults) (pid : Nat) :
    ∀ (files : List String) (w : PubConf.Wiki) (f : String), f ∈ files →
      PubConf.isArtifact f = true → faults.uploadFails f = true →
      PubConf.PubLog.uploadFailed f ∈ (PubConf.uploadLoop w faults pid files).2 := by
  intro files
  induction files with
  | nil =>
    intro w f hf
    simp at hf
  | cons g t ih =>
    intro w f hf hart hfail
    unfold PubConf.uploadLoop
    rcases List.mem_cons.1 hf with hfg | hmem
    · subst hfg
      rw [if_pos hart, hfail]
      unfold PubConf.upload_attachment
      exact List.mem_cons_self _ _
    · by_cases hg : PubConf.isArtifact g = true
      · rw [if_pos hg]
        exact List.mem_cons_of_mem _ (ih _ f hmem hart hfail)
      · rw [if_neg hg]
        exact ih _ f hmem hart hfail

/-- C9 counterexample: a single network failure at the page-find step (the
create step had conflicted normally on the already-existing suffixed
title) is logged, but the run then aborts on the unbound `page_id`: no
attachment upload is even attempted, against the claim that every later
independent step still runs. -/
theorem C9_find_failure_skips_all_uploads_counterexample :
    findFailureRun.log = [PubConf.PubLog.attemptingUpdate, PubConf.PubLog.cannotFindOrUpdate] ∧
    findFailureRun.uploadsAttempted = [] ∧
    findFailureRun.crashed = true := by
  refine ⟨by decide, by decide, by decide⟩

/-- C9 amended: failure isolation holds only inside the upload loop — when
the create step succeeds, every artifact upload is attempted and each
failed upload is logged while the loop continues — but a network failure
at the page-find step (after a create conflict) aborts the run with no
upload attempted, and only a message is logged. -/
theorem C9_failure_isolation_amended (w : PubConf.Wiki) (faults : PubConf.NetFaults)
    (space title : String) (version : Int) (body : String) (files : List String)
    (hcf : faults.createFails = false) :
    ((w.pages.any (fun p => p.space == space &&
        p.title == (title ++ " v" ++ pyStr version))) = false →
      (PubConf.publish_main w faults space title version body files).crashed = false ∧
      (PubConf.publish_main w faults space title version body files).uploadsAttempted =
        files.filter PubConf.isArtifact ∧
      ∀ f ∈ files, PubConf.isArtifact f = true → faults.uploadFails f = true →
        PubConf.PubLog.uploadFailed f ∈
          (PubConf.publish_main w faults space title version body files).log) ∧
    ((w.pages.any (fun p => p.space == space &&
        p.title == (title ++ " v" ++ pyStr version))) = true →
      faults.findFails = true →
      (PubConf.publish_main w faults space title version body files).uploadsAttempted = [] ∧
      PubConf.PubLog.cannotFindOrUpdate ∈
        (PubConf.publish_main w faults space title version body files).log ∧
      ((files.filter PubConf.isArtifact).isEmpty = false →
        (PubConf.publish_main w faults space title version body files).crashed = true)) := by
  constructor
  · intro hnodup
    have hcr : ∃ pr, PubConf.wikiCreatePage w space (title ++ " v" ++ pyStr version) body =
        Except.ok pr := by
      unfold PubConf.wikiCreatePage
      rw [hnodup]
      exact ⟨_, rfl⟩
    obtain ⟨⟨pid0, w1⟩, hcr⟩ := hcr
    have hmain : PubConf.publish_main w faults space title version body files =
        { pageId := some pid0,
          wiki := (PubConf.uploadLoop w1 faults pid0 files).1,
          uploadsAttempted := files.filter PubConf.isArtifact,
          log := PubConf.PubLog.createdPage pid0 ::
            (PubConf.uploadLoop w1 faults pid0 files).2,
          crashed := false } := by
      unfold PubConf.publish_main
      rw [hcf]
      dsimp only
      rw [hcr]
      rfl
    rw [hmain]
    refine ⟨rfl, rfl, ?_⟩
    intro f hf hart hfail
    exact List.mem_cons_of_mem _
      (uploadLoop_logs_each_failure faults pid0 files w1 f hf hart hfail)
  · intro hdup hff
    have hcr : PubConf.wikiCreatePage w space (title ++ " v" ++ pyStr version) body =
        Except.error () := by
      unfold PubConf.wikiCreatePage
      rw [hdup]
      rfl
    have hmain : PubConf.publish_main w faults space title version body files =
        { pageId := none, wiki := w, uploadsAttempted := [],
          log := [PubConf.PubLog.attemptingUpdate, PubConf.PubLog.cannotFindOrUpdate],
          crashed := !(files.filter PubConf.isArtifact).isEmpty } := by
      unfold PubConf.publish_main
      rw [hcf]
      dsimp only
      rw [hcr, hff]
      rfl
    rw [hmain]
    refine ⟨rfl, by simp, ?_⟩
    intro hne
    rw [hne]
    rfl

/-- C9 witness: the amended isolation applied twice concretely — a failing
upload of `a.html` on a fresh publish is logged while `b.pdf` is still
attempted, and the find-step failure aborts before any upload. -/
theorem C9_failure_isolation_amended_witness :
    (PubConf.publish_main wikiEmpty
        { createFails := false, findFails := false, updateFails := false,
          uploadFails := fun f => f == "a.html" }
        "DEMO" "T" 1 "b" ["a.html", "b.pdf"]).uploadsAttempted =
      ["a.html", "b.pdf"].filter PubConf.isArtifact ∧
    PubConf.PubLog.uploadFailed "a.html" ∈
      (PubConf.publish_main wikiEmpty
        { createFails := false, findFails := false, updateFails := false,
          uploadFails := fun f => f == "a.html" }
        "DEMO" "T" 1 "b" ["a.html", "b.pdf"]).log ∧
    (PubConf.publish_main wikiSuffixedPage faultsFindFails "DEMO" "Test Result Report" 1 "b"
      ["a.html", "b.pdf"]).uploadsAttempted = [] := by
  refine ⟨?_, ?_, ?_⟩
  · exact ((C9_failure_isolation_amended wikiEmpty
      { createFails := false, findFails := false, updateFails := false,
        uploadFails := fun f => f == "a.html" }
      "DEMO" "T" 1 "b" ["a.html", "b.pdf"] rfl).1 (by decide)).2.1
  · exact ((C9_failure_isolation_amended wikiEmpty
      { createFails := false, findFails := false, updateFails := false,
        uploadFails := fun f => f == "a.html" }
      "DEMO" "T" 1 "b" ["a.html", "b.pdf"] rfl).1 (by decide)).2.2 "a.html"
      (by decide) (by decide) (by decide)
  · exact ((C9_failure_isolation_amended wikiSuffixedPage faultsFindFails
      "DEMO" "Test Result Report" 1 "b" ["a.html", "b.pdf"] rfl).2 (by decide) rfl).1

/-- C1 (code bug): the create-or-update flow evaluated twice from the
empty wiki.  The first run creates and references page 0 under the
version-suffixed title; the second run's create conflicts, but its
fallback searches for the bare `CONFLUENCE_TITLE`, finds nothing, and so
references no page id at all and then crashes on the unbound `page_id` —
instead of updating the page the first run created. -/
theorem C1_second_run_references_no_page :
    firstPublishRun.pageId = some 0 ∧
    (firstPublishRun.wiki.pages.map (fun p => p.title)) = ["Test Result Report v1"] ∧
    secondPublishRun.pageId = Option.none ∧
    secondPublishRun.crashed = true ∧
    (secondPublishRun.wiki.pages.map (fun p => p.version)) = [1] := by
  refine ⟨by decide, by decide, by decide, by decide, by decide⟩

theorem digitChar_props (d : Nat) :
    (digitChar d).isDigit = true ∧ (digitChar d).isWhitespace = false ∧
      digitChar d ≠ '-' ∧ digitChar d ≠ '+' := by
  rcases d with _ | _ | _ | _ | _ | _ | _ | _ | _ | d
  · exact ⟨by decide, by decide, by decide, by decide⟩
  · exact ⟨by decide, by decide, by decide, by decide⟩
  · exact ⟨by decide, by decide, by decide, by decide⟩
  · exact ⟨by decide, by decide, by decide, by decide⟩
  · exact ⟨by decide, by decide, by decide, by decide⟩
  · exact ⟨by decide, by decide, by decide, by decide⟩
  · exact ⟨by decide, by decide, by decide, by decide⟩
  · exact ⟨by decide, by decide, by decide, by decide⟩
  · exact ⟨by decide, by decide, by decide, by decide⟩
  · exact ⟨rfl, rfl, fun h => absurd h (show ('9' : Char) ≠ '-' by decide),
      fun h => absurd h (show ('9' : Char) ≠ '+' by decide)⟩

theorem digitChar_val {d : Nat} (h : d < 10) : (digitChar d).toNat - 48 = d := by
  interval_cases d <;> decide

theorem digitsVal_append (l : List Char) (c : Char) :
    digitsVal (l ++ [c]) = digitsVal l * 10 + (c.toNat - 48) := by
  unfold digitsVal
  rw [List.foldl_append]
  rfl

theorem natDigitsFuel_spec :
    ∀ (fuel n : Nat), n < fuel →
      digitsVal (natDigitsFuel fuel n) = n ∧ natDigitsFuel fuel n ≠ [] ∧
      ∀ c ∈ natDigitsFuel fuel n,
        c.isDigit = true ∧ c.isWhitespace = false ∧ c ≠ '-' ∧ c ≠ '+' := by
  intro fuel
  induction fuel with
  | zero =>
    intro n hn
    omega
  | succ fu ih =>
    intro n hn
    unfold natDigitsFuel
    by_cases h10 : n < 10
    · rw [if_pos h10]
      refine ⟨?_, by simp, ?_⟩
      · show digitsVal ([] ++ [digitChar n]) = n
        rw [digitsVal_append]
        unfold digitsVal
        simp [digitChar_val h10]
      · intro c hc
        rw [List.mem_singleton] at hc
        subst hc
        exact digitChar_props n
    · rw [if_neg h10]
      have hrec : n / 10 < fu := by
        have h1 : n / 10 < n := Nat.div_lt_self (by omega) (by omega)
        omega
      rcases ih (n / 10) hrec with ⟨hval, hne, hmem⟩
      refine ⟨?_, by simp, ?_⟩
      · rw [digitsVal_append, hval, digitChar_val (Nat.mod_lt n (by omega))]
        omega
      · intro c hc
        rcases List.mem_append.1 hc with hc1 | hc2
        · exact hmem c hc1
        · rw [List.mem_singleton] at hc2
          subst hc2
          exact digitChar_props (n % 10)

theorem natDigits_spec (n : Nat) :
    digitsVal (natDigits n) = n ∧ natDigits n ≠ [] ∧
      ∀ c ∈ natDigits n,
        c.isDigit = true ∧ c.isWhitespace = false ∧ c ≠ '-' ∧ c ≠ '+' :=
  natDigitsFuel_spec (n + 1) n (by omega)

theorem dropWhile_eq_self_of_none (p : Char → Bool) (l : List Char)
    (h : ∀ c ∈ l, p c = false) : l.dropWhile p = l := by
  cases l with
  | nil => rfl
  | cons c t =>
    rw [List.dropWhile_cons, h c (List.mem_cons_self c t)]
    rfl

theorem stripChars_eq_self (l : List Char) (h : ∀ c ∈ l, c.isWhitespace = false) :
    stripChars l = l := by
  unfold stripChars
  rw [dropWhile_eq_self_of_none _ _ h]
  rw [dropWhile_eq_self_of_none _ _ (by intro c hc; exact h c (List.mem_reverse.1 hc))]
  exact List.reverse_reverse l

theorem parseDigits_of_digits (l : List Char) (hne : l ≠ [])
    (hd : ∀ c ∈ l, c.isDigit = true) : parseDigits l = some (digitsVal l) := by
  unfold parseDigits
  rw [if_pos ⟨hne, List.all_eq_true.2 hd⟩]

theorem pyParseInt_pyStr (n : Int) : pyParseInt (pyStr n) = some n := by
  unfold pyStr pyParseInt
  rcases natDigits_spec n.natAbs with ⟨hval, hne, hmem⟩
  by_cases hn : n < 0
  · rw [if_pos hn]
    show parseSignedDigits (stripChars ('-' :: natDigits n.natAbs)) = some n
    rw [stripChars_eq_self _ ?hws]
    case hws =>
      intro c hc
      rcases List.mem_cons.1 hc with hc1 | hc2
      · subst hc1
        decide
      · exact (hmem c hc2).2.1
    show (parseDigits (natDigits n.natAbs)).map (fun m => -(m : Int)) = some n
    rw [parseDigits_of_digits _ hne (fun c hc => (hmem c hc).1), hval]
    show some (-(n.natAbs : Int)) = some n
    congr 1
    omega
  · rw [if_neg hn]
    show parseSignedDigits (stripChars (natDigits n.natAbs)) = some n
    rw [stripChars_eq_self _ (fun c hc => (hmem c hc).2.1)]
    rcases hD : natDigits n.natAbs with _ | ⟨c, rest⟩
    · exact absurd hD hne
    · have hc0 := hmem c (by rw [hD]; exact List.mem_cons_self c rest)
      have hps : parseSignedDigits (c :: rest) =
          (parseDigits (c :: rest)).map (fun m => (m : Int)) := by
        show (if c = '-' then (parseDigits rest).map (fun m => -(m : Int))
          else if c = '+' then (parseDigits rest).map (fun m => (m : Int))
          else (parseDigits (c :: rest)).map (fun m => (m : Int))) =
          (parseDigits (c :: rest)).map (fun m => (m : Int))
        rw [if_neg hc0.2.2.1, if_neg hc0.2.2.2]
      rw [hps, ← hD, parseDigits_of_digits _ hne (fun c2 hc2 => (hmem c2 hc2).1), hval]
      show some ((n.natAbs : Int)) = some n
      congr 1
      omega

/-- C6 counterexample: on a version file holding `"abc"` the publish
script's `read_version` raises `ValueError` (modelled `none`) instead of
returning 1 as the claim requires for malformed content; the
generate_report variant of the same store does return 1 there. -/
theorem C6_publish_read_raises_on_malformed_counterexample :
    PubConf.read_version fsBadVersion = Option.none ∧
    PubConf.read_version fsBadVersion ≠ some 1 ∧
    GenReport.read_version fsBadVersion = 1 := by
  refine ⟨by decide, by decide, by decide⟩

/-- C6 amended: generate_report's version store behaves exactly as
claimed — read returns the persisted counter, 1 on an absent or malformed
file; increment returns read-plus-one and persists it, giving 2 on a
fresh store and n+1 then n+2 on sequential calls — but the publish
script's `read_version` only defaults to 1 when the file is absent and
raises `ValueError` on malformed content. -/
theorem C6_version_store_amended (fs : FS) :
    (fs GenReport.VERSION_FILE = none → GenReport.read_version fs = 1) ∧
    (∀ c, fs GenReport.VERSION_FILE = some c → pyParseInt c = none →
      GenReport.read_version fs = 1) ∧
    (∀ c n, fs GenReport.VERSION_FILE = some c → pyParseInt c = some n →
      GenReport.read_version fs = n) ∧
    ((GenReport.increment_version fs).1 = GenReport.read_version fs + 1) ∧
    ((GenReport.increment_version fs).2 GenReport.VERSION_FILE =
      some (pyStr (GenReport.read_version fs + 1))) ∧
    (fs GenReport.VERSION_FILE = none → (GenReport.increment_version fs).1 = 2) ∧
    ((GenReport.increment_version ((GenReport.increment_version fs).2)).1 =
      GenReport.read_version fs + 2) ∧
    (fs PubConf.VERSION_FILE = none → PubConf.read_version fs = some 1) ∧
    (∀ c n, fs PubConf.VERSION_FILE = some c → pyParseInt c = some n →
      PubConf.read_version fs = some n) := by
  have hpersist : (GenReport.increment_version fs).2 GenReport.VERSION_FILE =
      some (pyStr (GenReport.read_version fs + 1)) := by
    show (if GenReport.VERSION_FILE = GenReport.VERSION_FILE
      then some (pyStr (GenReport.read_version fs + 1)) else fs GenReport.VERSION_FILE) =
      some (pyStr (GenReport.read_version fs + 1))
    rw [if_pos rfl]
  have hreread : GenReport.read_version ((GenReport.increment_version fs).2) =
      GenReport.read_version fs + 1 := by
    unfold GenReport.read_version
    rw [hpersist]
    dsimp only
    rw [pyParseInt_pyStr]
    rfl
  refine ⟨?_, ?_, ?_, rfl, hpersist, ?_, ?_, ?_, ?_⟩
  · intro h
    unfold GenReport.read_version
    rw [h]
  · intro c hc hp
    unfold GenReport.read_version
    rw [hc]
    dsimp only
    rw [hp]
    rfl
  · intro c n hc hp
    unfold GenReport.read_version
    rw [hc]
    dsimp only
    rw [hp]
    rfl
  · intro h
    show GenReport.read_version fs + 1 = 2
    unfold GenReport.read_version
    rw [h]
    decide
  · show GenReport.read_version ((GenReport.increment_version fs).2) + 1 =
      GenReport.read_version fs + 2
    rw [hreread]
    omega
  · intro h
    unfold PubConf.read_version
    rw [h]
  · intro c n hc hp
    unfold PubConf.read_version
    rw [hc]
    dsimp only
    rw [hp]

/-- C6 witness: the amended contract applied at a fresh store and at the
malformed store — read gives 1, the first increment gives 2, the second
gives 3, the publish variant reads 1 on the fresh store, and the
generate variant reads 1 on the malformed one. -/
theorem C6_version_store_amended_witness :
    GenReport.read_version (fun _ => none) = 1 ∧
    (GenReport.increment_version (fun _ => none)).1 = 2 ∧
    (GenReport.increment_version ((GenReport.increment_version (fun _ => none)).2)).1 =
      GenReport.read_version (fun _ => none) + 2 ∧
    PubConf.read_version (fun _ => none) = some 1 ∧
    GenReport.read_version fsBadVersion = 1 :=
  ⟨(C6_version_store_amended (fun _ => none)).1 rfl,
   (C6_version_store_amended (fun _ => none)).2.2.2.2.2.1 rfl,
   (C6_version_store_amended (fun _ => none)).2.2.2.2.2.2.1,
   (C6_version_store_amended (fun _ => none)).2.2.2.2.2.2.2.1 rfl,
   (C6_version_store_amended fsBadVersion).2.1 "abc" (by decide) (by decide)⟩
